import Mathlib

/-!
Shallow embedding of the capture-and-submit controller of `src/src/App.js`
(the `App` component: state hooks `capturing`, `analyzing`, `result`, `error`
and the operations `startCamera`, `stopCamera`, `captureAndAnalyze`,
`downloadReceipt`, `reset`).  Browser effects (media stream, canvas, network)
are modelled as explicit inputs; each operation is a pure function on the
controller state.
-/

/-- One detected food item of the backend payload
(`{name, confidence, price, calories, protein, carbs, fat}`). -/
structure FoodItem where
  name : String
  confidence : Int
  price : Int
  calories : Int
  protein : Int
  carbs : Int
  fat : Int
deriving DecidableEq

/-- Aggregate totals of the backend payload (`totals` object). -/
structure Totals where
  total_price : Int
  total_calories : Int
  total_protein : Int
  total_carbs : Int
  total_fat : Int
deriving DecidableEq

/-- The JSON body of a backend `/analyze` response (`response.data`). -/
structure AnalysisResponse where
  success : Bool
  items : List FoodItem
  totals : Totals
  timestamp : String
  receipt_html : String
deriving DecidableEq

/-- The controller state: the `stream` ref (a held media-stream handle,
modelled by an identifier) and the four `useState` hooks. -/
structure AppState where
  stream : Option Nat
  capturing : Bool
  analyzing : Bool
  result : Option AnalysisResponse
  error : Option String
deriving DecidableEq

/-- The initial hook values: `useState(null)/false` everywhere. -/
def initialState : AppState :=
  { stream := none, capturing := false, analyzing := false,
    result := none, error := none }

/-- Message set by `startCamera` on denial / device error. -/
def cameraErrorMsg : String :=
  "Failed to access camera. Please ensure camera permissions are granted."

/-- Message set when `videoRef.current` or `canvasRef.current` is null. -/
def cameraNotReadyMsg : String := "Camera not ready"

/-- Message set when `video.readyState !== video.HAVE_ENOUGH_DATA`. -/
def videoNotReadyMsg : String := "Video not ready. Please wait a moment."

/-- Message of the `Error` thrown when the canvas has zero dimensions. -/
def invalidDimsMsg : String := "Invalid video dimensions"

/-- Message of the `Error` rejected when `toBlob` yields a null/empty blob. -/
def captureFailMsg : String := "Failed to capture photo"

/-- Message set on a response with `success` false. -/
def analyzeFailMsg : String := "Failed to analyze image"

/-- Final fallback of the catch handler. -/
def genericAnalyzeErrMsg : String := "Failed to analyze. Please try again."

/-- `HTMLMediaElement.HAVE_ENOUGH_DATA` readiness constant. -/
def HAVE_ENOUGH_DATA : Nat := 4

/-- A thrown request error (`err`): its `message` string and the optional
server-supplied `err.response?.data?.error` string (`none` models
`undefined`). -/
structure RequestError where
  message : String
  responseError : Option String
deriving DecidableEq

/-- The environment of one `captureAndAnalyze` invocation: whether the
refs are bound, the video readiness and dimensions, the outcome of
`canvas.toBlob` (`none` models a null blob, otherwise the blob size in
bytes), and the outcome of the `axios.post` call. -/
structure CaptureEnv where
  videoPresent : Bool
  canvasPresent : Bool
  readyState : Nat
  videoWidth : Nat
  videoHeight : Nat
  blob : Option Nat
  netResult : Except RequestError AnalysisResponse

/-- JavaScript string `a || b`: the empty string is falsy. -/
def jsOrStr (a b : String) : String := if a = "" then b else a

/-- The catch handler's message selection
`err.message || err.response?.data?.error || 'Failed to analyze. Please try again.'`
(an absent `response.data.error` behaves like the empty string). -/
def surfacedError (msg : String) (respErr : Option String) : String :=
  jsOrStr msg (jsOrStr (respErr.getD "") genericAnalyzeErrMsg)

/-- Outcome of `navigator.mediaDevices.getUserMedia`: a granted stream
(identified by a handle) or a denial / device error. -/
inductive CameraGrant where
  | granted (streamId : Nat)
  | denied
deriving DecidableEq

/-- `startCamera`: clears `error`, requests the camera; on grant stores the
stream and sets `capturing` true; on denial the catch sets the camera error
message (`setCapturing(true)` is never reached). -/
def startCamera (s : AppState) (g : CameraGrant) : AppState :=
  match g with
  | CameraGrant.granted id =>
      { s with error := none, stream := some id, capturing := true }
  | CameraGrant.denied =>
      { s with error := some cameraErrorMsg }

/-- `stopCamera`: stops all tracks, drops the stream, clears `capturing`. -/
def stopCamera (s : AppState) : AppState :=
  { s with stream := none, capturing := false }

/-- `captureAndAnalyze`: returns the controller state after the invocation
completes, paired with a flag recording whether the `axios.post` request
was issued.  Mirrors the source branch for branch: null-ref guard,
readiness guard, `setAnalyzing(true); setError(null); setResult(null)`,
zero-dimension throw, `toBlob` rejection on a null/empty blob, then the
POST with `success` dispatch, the catch handler, and the `finally`
clearing `analyzing`. -/
def captureAndAnalyze (s : AppState) (env : CaptureEnv) : AppState × Bool :=
  if env.videoPresent = false ∨ env.canvasPresent = false then
    ({ s with error := some cameraNotReadyMsg }, false)
  else if env.readyState ≠ HAVE_ENOUGH_DATA then
    ({ s with error := some videoNotReadyMsg }, false)
  else
    let s1 : AppState := { s with analyzing := true, error := none, result := none }
    if env.videoWidth = 0 ∨ env.videoHeight = 0 then
      ({ s1 with error := some (surfacedError invalidDimsMsg none), analyzing := false }, false)
    else
      match env.blob with
      | none =>
          ({ s1 with error := some (surfacedError captureFailMsg none), analyzing := false }, false)
      | some size =>
          if size = 0 then
            ({ s1 with error := some (surfacedError captureFailMsg none), analyzing := false }, false)
          else
            match env.netResult with
            | Except.ok resp =>
                if resp.success then
                  ({ stopCamera s1 with result := some resp, analyzing := false }, true)
                else
                  ({ s1 with error := some analyzeFailMsg, analyzing := false }, true)
            | Except.error e =>
                ({ s1 with error := some (surfacedError e.message e.responseError), analyzing := false }, true)

/-- The controller state after a `captureAndAnalyze` invocation. -/
def captureResult (s : AppState) (env : CaptureEnv) : AppState :=
  (captureAndAnalyze s env).1

/-- Whether the `captureAndAnalyze` invocation issued the POST request. -/
def postSent (s : AppState) (env : CaptureEnv) : Bool :=
  (captureAndAnalyze s env).2

/-- `downloadReceipt`: returns the content of the downloaded file, `none`
when the early `if (!result) return` fires.  The blob handed to the object
URL is built from exactly `[result.receipt_html]`. -/
def downloadReceipt (s : AppState) : Option String :=
  match s.result with
  | none => none
  | some r => some r.receipt_html

/-- `reset`: clears `result` and `error` (nothing else). -/
def reset (s : AppState) : AppState :=
  { s with result := none, error := none }

/-- The number of item cards the results section renders
(`result.items.map(...)`); 0 when no results section is shown. -/
def renderedItemCount (s : AppState) : Nat :=
  match s.result with
  | none => 0
  | some r => r.items.length

/-- The totals the totals card renders (`result.totals.*`). -/
def renderedTotals (s : AppState) : Option Totals :=
  s.result.map fun r => r.totals

/-- Sample payload used by concrete witnesses. -/
def sampleItem : FoodItem :=
  { name := "pizza", confidence := 93, price := 120, calories := 285,
    protein := 12, carbs := 36, fat := 10 }

/-- Sample totals used by concrete witnesses. -/
def sampleTotals : Totals :=
  { total_price := 120, total_calories := 285, total_protein := 12,
    total_carbs := 36, total_fat := 10 }

/-- Sample successful backend response. -/
def sampleResp : AnalysisResponse :=
  { success := true, items := [sampleItem], totals := sampleTotals,
    timestamp := "2025-01-01 12:00", receipt_html := "<html>receipt</html>" }

/-- Controller state during a live preview, as when the capture button is
enabled. -/
def liveState : AppState :=
  { stream := some 1, capturing := true, analyzing := false,
    result := none, error := none }

/-- Environment of a fully successful capture invocation. -/
def okEnv : CaptureEnv :=
  { videoPresent := true, canvasPresent := true, readyState := 4,
    videoWidth := 1280, videoHeight := 720, blob := some 4096,
    netResult := Except.ok sampleResp }

/-- C1: a backend response with `success` true and a well-formed payload is
stored wholesale as `result` (so the rendered item count and totals are the
payload's), and the camera is stopped: `capturing` becomes false and the
stream is released; `analyzing` resolves to false. -/
theorem captureAndAnalyze_success (s : AppState) (env : CaptureEnv)
    (resp : AnalysisResponse)
    (hv : env.videoPresent = true) (hc : env.canvasPresent = true)
    (hr : env.readyState = HAVE_ENOUGH_DATA)
    (hw : env.videoWidth ≠ 0) (hh : env.videoHeight ≠ 0)
    (n : Nat) (hb : env.blob = some n) (hn0 : n ≠ 0)
    (hnet : env.netResult = Except.ok resp) (hs : resp.success = true) :
    (captureResult s env).result = some resp ∧
    (captureResult s env).capturing = false ∧
    (captureResult s env).stream = none ∧
    (captureResult s env).analyzing = false ∧
    renderedItemCount (captureResult s env) = resp.items.length ∧
    renderedTotals (captureResult s env) = some resp.totals := by
  simp [captureResult, captureAndAnalyze, stopCamera, renderedItemCount,
    renderedTotals, hv, hc, hr, hw, hh, hb, hn0, hnet, hs]

/-- C1 witness: the success theorem at a concrete live state, environment
and payload. -/
theorem captureAndAnalyze_success_witness :
    (captureResult liveState okEnv).result = some sampleResp ∧
    (captureResult liveState okEnv).capturing = false ∧
    (captureResult liveState okEnv).stream = none ∧
    (captureResult liveState okEnv).analyzing = false ∧
    renderedItemCount (captureResult liveState okEnv) = sampleResp.items.length ∧
    renderedTotals (captureResult liveState okEnv) = some sampleResp.totals :=
  captureAndAnalyze_success liveState okEnv sampleResp rfl rfl rfl
    (by decide) (by decide) 4096 rfl (by decide) rfl rfl

/-- `surfacedError` never yields the empty string. -/
theorem surfacedError_ne_empty (msg : String) (respErr : Option String) :
    surfacedError msg respErr ≠ "" := by
  unfold surfacedError jsOrStr
  split
  · split
    · simp [genericAnalyzeErrMsg]
    · assumption
  · assumption

/-- C2: invoking `captureAndAnalyze` while the video element has not yet
buffered a frame (`readyState` differs from `HAVE_ENOUGH_DATA`) fails fast
with the "Video not ready" message, issues no POST, and never sets
`analyzing`. -/
theorem captureAndAnalyze_videoNotReady (s : AppState) (env : CaptureEnv)
    (hv : env.videoPresent = true) (hc : env.canvasPresent = true)
    (hr : env.readyState ≠ HAVE_ENOUGH_DATA) (ha : s.analyzing = false) :
    (captureResult s env).error = some videoNotReadyMsg ∧
    postSent s env = false ∧
    (captureResult s env).analyzing = false := by
  simp [captureResult, postSent, captureAndAnalyze, hv, hc, hr, ha]

/-- Environment in which the stream has not buffered a frame yet. -/
def notReadyEnv : CaptureEnv :=
  { videoPresent := true, canvasPresent := true, readyState := 0,
    videoWidth := 0, videoHeight := 0, blob := none,
    netResult := Except.ok sampleResp }

/-- C2 witness: the not-ready theorem at a concrete live state. -/
theorem captureAndAnalyze_videoNotReady_witness :
    (captureResult liveState notReadyEnv).error = some videoNotReadyMsg ∧
    postSent liveState notReadyEnv = false ∧
    (captureResult liveState notReadyEnv).analyzing = false :=
  captureAndAnalyze_videoNotReady liveState notReadyEnv rfl rfl
    (by decide) rfl

/-- C3: for a response with `success` false, and for any thrown request
error (timeout or network failure), the invocation ends with a non-empty
error message, a null `result`, `capturing` exactly as it was when the
submission started, and `analyzing` resolved to false. -/
theorem captureAndAnalyze_failure (s : AppState) (env : CaptureEnv)
    (hv : env.videoPresent = true) (hc : env.canvasPresent = true)
    (hr : env.readyState = HAVE_ENOUGH_DATA)
    (hw : env.videoWidth ≠ 0) (hh : env.videoHeight ≠ 0)
    (n : Nat) (hb : env.blob = some n) (hn0 : n ≠ 0)
    (hfail : (∃ e, env.netResult = Except.error e) ∨
             (∃ r, env.netResult = Except.ok r ∧ r.success = false)) :
    (∃ m, (captureResult s env).error = some m ∧ m ≠ "") ∧
    (captureResult s env).result = none ∧
    (captureResult s env).capturing = s.capturing ∧
    (captureResult s env).analyzing = false := by
  rcases hfail with ⟨e, he⟩ | ⟨r, hrk, hrs⟩
  · refine ⟨⟨surfacedError e.message e.responseError, ?_, surfacedError_ne_empty _ _⟩, ?_, ?_, ?_⟩ <;>
      simp [captureResult, captureAndAnalyze, hv, hc, hr, hw, hh, hb, hn0, he]
  · refine ⟨⟨analyzeFailMsg, ?_, by simp [analyzeFailMsg]⟩, ?_, ?_, ?_⟩ <;>
      simp [captureResult, captureAndAnalyze, hv, hc, hr, hw, hh, hb, hn0, hrk, hrs]

/-- Environment in which the request times out. -/
def timeoutEnv : CaptureEnv :=
  { videoPresent := true, canvasPresent := true, readyState := 4,
    videoWidth := 1280, videoHeight := 720, blob := some 4096,
    netResult := Except.error { message := "timeout of 30000ms exceeded",
                                responseError := none } }

/-- C3 witness: the failure theorem at a concrete timeout. -/
theorem captureAndAnalyze_failure_witness :
    (∃ m, (captureResult liveState timeoutEnv).error = some m ∧ m ≠ "") ∧
    (captureResult liveState timeoutEnv).result = none ∧
    (captureResult liveState timeoutEnv).capturing = liveState.capturing ∧
    (captureResult liveState timeoutEnv).analyzing = false :=
  captureAndAnalyze_failure liveState timeoutEnv rfl rfl rfl
    (by decide) (by decide) 4096 rfl (by decide)
    (Or.inl ⟨{ message := "timeout of 30000ms exceeded", responseError := none }, rfl⟩)

/-- C5: `startCamera` invoked from idle (`capturing` false) with camera
access denied leaves `capturing` false and sets the non-empty camera error
message. -/
theorem startCamera_denied (s : AppState) (h : s.capturing = false) :
    (startCamera s CameraGrant.denied).capturing = false ∧
    (startCamera s CameraGrant.denied).error = some cameraErrorMsg ∧
    cameraErrorMsg ≠ "" := by
  refine ⟨?_, rfl, by simp [cameraErrorMsg]⟩
  simp [startCamera, h]

/-- C5 witness: camera denial from the initial state. -/
theorem startCamera_denied_witness :
    (startCamera initialState CameraGrant.denied).capturing = false ∧
    (startCamera initialState CameraGrant.denied).error = some cameraErrorMsg ∧
    cameraErrorMsg ≠ "" :=
  startCamera_denied initialState rfl

/-- C6: when `canvas.toBlob` yields a null or zero-byte blob, the
invocation fails locally with the capture error message and issues no POST. -/
theorem captureAndAnalyze_emptyBlob (s : AppState) (env : CaptureEnv)
    (hv : env.videoPresent = true) (hc : env.canvasPresent = true)
    (hr : env.readyState = HAVE_ENOUGH_DATA)
    (hw : env.videoWidth ≠ 0) (hh : env.videoHeight ≠ 0)
    (hb : env.blob = none ∨ env.blob = some 0) :
    (captureResult s env).error = some captureFailMsg ∧
    postSent s env = false ∧
    (captureResult s env).analyzing = false := by
  have hmsg : surfacedError captureFailMsg none = captureFailMsg := by
    simp [surfacedError, jsOrStr, captureFailMsg]
  rcases hb with hb | hb <;>
    simp [captureResult, postSent, captureAndAnalyze, hv, hc, hr, hw, hh, hb, hmsg]

/-- Environment in which encoding yields a null blob. -/
def nullBlobEnv : CaptureEnv :=
  { videoPresent := true, canvasPresent := true, readyState := 4,
    videoWidth := 1280, videoHeight := 720, blob := none,
    netResult := Except.ok sampleResp }

/-- C6 witness: the empty-blob theorem at a concrete environment. -/
theorem captureAndAnalyze_emptyBlob_witness :
    (captureResult liveState nullBlobEnv).error = some captureFailMsg ∧
    postSent liveState nullBlobEnv = false ∧
    (captureResult liveState nullBlobEnv).analyzing = false :=
  captureAndAnalyze_emptyBlob liveState nullBlobEnv rfl rfl rfl
    (by decide) (by decide) (Or.inl rfl)

/-- `surfacedError` spelled out as nested conditionals. -/
theorem surfacedError_eq_spell (msg : String) (respErr : Option String) :
    surfacedError msg respErr =
      (if msg = "" then
        (if respErr.getD "" = "" then genericAnalyzeErrMsg else respErr.getD "")
       else msg) := rfl

/-- Thrown request error carrying both its own message and a
server-supplied message. -/
def c7Err : RequestError :=
  { message := "timeout of 30000ms exceeded",
    responseError := some "No food detected" }

/-- Environment in which the request fails with `c7Err`. -/
def c7Env : CaptureEnv :=
  { videoPresent := true, canvasPresent := true, readyState := 4,
    videoWidth := 640, videoHeight := 480, blob := some 1024,
    netResult := Except.error c7Err }

/-- C7 counterexample: a backend failure whose response carries the
server-supplied message "No food detected" surfaces the thrown error's own
message instead — `err.message` comes first in the catch handler's
`err.message || err.response?.data?.error || ...` chain, and a thrown
request error always has a non-empty `message`. -/
theorem captureAndAnalyze_prefers_thrown_message :
    c7Env.netResult = Except.error c7Err ∧
    c7Err.responseError = some "No food detected" ∧
    (captureResult liveState c7Env).error = some "timeout of 30000ms exceeded" ∧
    (captureResult liveState c7Env).error ≠ some "No food detected" := by
  refine ⟨rfl, rfl, by decide, by decide⟩

/-- C7 amended: on a thrown request error the surfaced message is the
error's own `message` when non-empty, else the server-supplied
`response.data.error` when present and non-empty, else the generic
fallback; a response with `success` false always surfaces the fixed
"Failed to analyze image" message, never a server-supplied one. -/
theorem captureAndAnalyze_message_selection (s : AppState) (env : CaptureEnv)
    (hv : env.videoPresent = true) (hc : env.canvasPresent = true)
    (hr : env.readyState = HAVE_ENOUGH_DATA)
    (hw : env.videoWidth ≠ 0) (hh : env.videoHeight ≠ 0)
    (n : Nat) (hb : env.blob = some n) (hn0 : n ≠ 0) :
    (∀ e, env.netResult = Except.error e →
        (captureResult s env).error =
          some (if e.message = "" then
                  (if e.responseError.getD "" = "" then genericAnalyzeErrMsg
                   else e.responseError.getD "")
                else e.message)) ∧
    (∀ r, env.netResult = Except.ok r → r.success = false →
        (captureResult s env).error = some analyzeFailMsg) := by
  constructor
  · intro e he
    rw [← surfacedError_eq_spell]
    simp [captureResult, captureAndAnalyze, hv, hc, hr, hw, hh, hb, hn0, he]
  · intro r hrk hrs
    simp [captureResult, captureAndAnalyze, hv, hc, hr, hw, hh, hb, hn0, hrk, hrs]

/-- Environment in which an HTTP error status carries a server message. -/
def serverErrEnv : CaptureEnv :=
  { videoPresent := true, canvasPresent := true, readyState := 4,
    videoWidth := 1280, videoHeight := 720, blob := some 2048,
    netResult := Except.error { message := "Request failed with status code 500",
                                responseError := some "No food detected" } }

/-- C7 amended witness: the selection theorem at a concrete HTTP failure. -/
theorem captureAndAnalyze_message_selection_witness :
    (captureResult liveState serverErrEnv).error =
      some "Request failed with status code 500" := by
  have h := (captureAndAnalyze_message_selection liveState serverErrEnv rfl rfl rfl
      (by decide) (by decide) 2048 rfl (by decide)).1
    { message := "Request failed with status code 500",
      responseError := some "No food detected" } rfl
  simpa using h

/-- C8: `downloadReceipt` is a no-op (downloads nothing) when `result` is
null, and with a result present downloads a file whose content is exactly
the stored `receipt_html` string. -/
theorem downloadReceipt_spec (s : AppState) :
    (s.result = none → downloadReceipt s = none) ∧
    (∀ r, s.result = some r → downloadReceipt s = some r.receipt_html) := by
  constructor
  · intro h
    simp [downloadReceipt, h]
  · intro r h
    simp [downloadReceipt, h]

/-- Controller state holding a finished analysis. -/
def sampleResultState : AppState :=
  { stream := none, capturing := false, analyzing := false,
    result := some sampleResp, error := none }

/-- C8 witness: both branches at concrete states. -/
theorem downloadReceipt_spec_witness :
    downloadReceipt initialState = none ∧
    downloadReceipt sampleResultState = some sampleResp.receipt_html :=
  ⟨(downloadReceipt_spec initialState).1 rfl,
   (downloadReceipt_spec sampleResultState).2 sampleResp rfl⟩

/-- Reachable state in which a capture failed while the camera stayed live:
the error banner and its Try Again button are shown next to the preview. -/
def erroredCaptureState : AppState :=
  { stream := some 1, capturing := true, analyzing := false,
    result := none, error := some analyzeFailMsg }

/-- C9 counterexample: `reset` from a live-camera state clears `result` and
`error` but leaves `capturing` true and the stream held, so the controller
does not return to idle mode. -/
theorem reset_keeps_capture_mode :
    (reset erroredCaptureState).result = none ∧
    (reset erroredCaptureState).error = none ∧
    (reset erroredCaptureState).capturing = true ∧
    (reset erroredCaptureState).stream = some 1 :=
  ⟨rfl, rfl, rfl, rfl⟩

/-- C9 amended: `reset` clears `result` and `error` and leaves `capturing`,
the stream and `analyzing` unchanged; only when invoked with the camera
already inactive does the controller end in idle mode. -/
theorem reset_clears_result_and_error (s : AppState) :
    (reset s).result = none ∧ (reset s).error = none ∧
    (reset s).capturing = s.capturing ∧ (reset s).stream = s.stream ∧
    (reset s).analyzing = s.analyzing :=
  ⟨rfl, rfl, rfl, rfl, rfl⟩

/-- C10: once past the readiness guards, every non-success outcome (zero
canvas dimensions, null/empty blob, thrown request error, or `success`
false) ends with `result` null — `setResult(null)` runs at submission
start, so a previously stored result is discarded and never restored — and
an error message present. -/
theorem captureAndAnalyze_failure_clears_prior_result (s : AppState) (env : CaptureEnv)
    (hv : env.videoPresent = true) (hc : env.canvasPresent = true)
    (hr : env.readyState = HAVE_ENOUGH_DATA)
    (hfail : env.videoWidth = 0 ∨ env.videoHeight = 0 ∨ env.blob = none ∨
             env.blob = some 0 ∨ (∃ e, env.netResult = Except.error e) ∨
             (∃ r, env.netResult = Except.ok r ∧ r.success = false)) :
    (captureResult s env).result = none ∧
    (captureResult s env).error.isSome = true := by
  by_cases hw : env.videoWidth = 0
  · simp [captureResult, captureAndAnalyze, hv, hc, hr, hw]
  by_cases hh : env.videoHeight = 0
  · simp [captureResult, captureAndAnalyze, hv, hc, hr, hw, hh]
  cases hb : env.blob with
  | none => simp [captureResult, captureAndAnalyze, hv, hc, hr, hw, hh, hb]
  | some n =>
    by_cases hn : n = 0
    · simp [captureResult, captureAndAnalyze, hv, hc, hr, hw, hh, hb, hn]
    rcases hfail with h | h | h | h | ⟨e, he⟩ | ⟨r, hrk, hrs⟩
    · exact absurd h hw
    · exact absurd h hh
    · rw [hb] at h
      exact Option.noConfusion h
    · rw [hb] at h
      simp only [Option.some.injEq] at h
      exact absurd h hn
    · simp [captureResult, captureAndAnalyze, hv, hc, hr, hw, hh, hb, hn, he]
    · simp [captureResult, captureAndAnalyze, hv, hc, hr, hw, hh, hb, hn, hrk, hrs]

/-- Live state still holding a stale result from an earlier analysis. -/
def staleResultLiveState : AppState :=
  { stream := some 1, capturing := true, analyzing := false,
    result := some sampleResp, error := none }

/-- C10 witness: a timeout after a stored result leaves `result` null. -/
theorem captureAndAnalyze_failure_clears_prior_result_witness :
    (captureResult staleResultLiveState timeoutEnv).result = none ∧
    (captureResult staleResultLiveState timeoutEnv).error.isSome = true :=
  captureAndAnalyze_failure_clears_prior_result staleResultLiveState timeoutEnv
    rfl rfl rfl
    (Or.inr (Or.inr (Or.inr (Or.inr (Or.inl
      ⟨{ message := "timeout of 30000ms exceeded", responseError := none }, rfl⟩)))))

/-- `captureAndAnalyze` preserves the controller invariant: started from a
state with no stored result and no submission in flight, it ends with the
camera off or no result stored, and with `analyzing` false (the `finally`
clause, or the guards that return before `setAnalyzing(true)`). -/
theorem captureAndAnalyze_preserves_inv (s : AppState) (env : CaptureEnv)
    (hres : s.result = none) (ha : s.analyzing = false) :
    ((captureResult s env).capturing = false ∨ (captureResult s env).result = none) ∧
    (captureResult s env).analyzing = false := by
  by_cases h1 : env.videoPresent = false ∨ env.canvasPresent = false
  · simp [captureResult, captureAndAnalyze, h1, hres, ha]
  by_cases h2 : env.readyState = HAVE_ENOUGH_DATA
  case neg => simp [captureResult, captureAndAnalyze, h1, h2, hres, ha]
  by_cases h3 : env.videoWidth = 0 ∨ env.videoHeight = 0
  · simp [captureResult, captureAndAnalyze, h1, h2, h3]
  cases hb : env.blob with
  | none => simp [captureResult, captureAndAnalyze, h1, h2, h3, hb]
  | some n =>
    by_cases hn : n = 0
    · simp [captureResult, captureAndAnalyze, h1, h2, h3, hb, hn]
    cases hnet : env.netResult with
    | error e => simp [captureResult, captureAndAnalyze, h1, h2, h3, hb, hn, hnet]
    | ok r =>
      by_cases hs : r.success = true
      · simp [captureResult, captureAndAnalyze, stopCamera, h1, h2, h3, hb, hn, hnet, hs]
      · simp [captureResult, captureAndAnalyze, h1, h2, h3, hb, hn, hnet, hs]

/-- A user-visible operation of the controller.  Each constructor is one
control of the rendered UI, guarded by the conditions under which that
control is rendered and enabled: the Start Camera button (shown when not
capturing and no result), the Cancel and capture buttons (shown while
capturing without a result, disabled while analyzing), the Try Again
button of the error banner, and the New Scan button of the results section
(which runs `reset()` then `startCamera()`). -/
inductive Step : AppState → AppState → Prop where
  | startBtn (s : AppState) (g : CameraGrant)
      (h1 : s.capturing = false) (h2 : s.result = none) :
      Step s (startCamera s g)
  | cancelBtn (s : AppState)
      (h1 : s.capturing = true) (h2 : s.result = none) (h3 : s.analyzing = false) :
      Step s (stopCamera s)
  | captureBtn (s : AppState) (env : CaptureEnv)
      (h1 : s.capturing = true) (h2 : s.result = none) (h3 : s.analyzing = false) :
      Step s (captureResult s env)
  | tryAgainBtn (s : AppState) (h : s.error.isSome = true) :
      Step s (reset s)
  | newScanBtn (s : AppState) (g : CameraGrant) (h : s.result.isSome = true) :
      Step s (startCamera (reset s) g)

/-- States reachable from the initial hook values by any sequence of
user-visible operations. -/
inductive Reachable : AppState → Prop where
  | init : Reachable initialState
  | step {s t : AppState} (hs : Reachable s) (hst : Step s t) : Reachable t

/-- C4: in every reachable state, at most one of camera-active
(`capturing` true) and result-present holds, and `analyzing` is false — in
this atomic-step model a submission is outstanding only inside a
`captureAndAnalyze` step, and every completion path of that step resolves
`analyzing` to false. -/
theorem reachable_invariant (s : AppState) (h : Reachable s) :
    (s.capturing = false ∨ s.result = none) ∧ s.analyzing = false := by
  induction h with
  | init => exact ⟨Or.inl rfl, rfl⟩
  | step hs hst ih =>
    cases hst with
    | startBtn g h1 h2 =>
        cases g <;> simp [startCamera, h1, h2, ih.2]
    | cancelBtn h1 h2 h3 =>
        simp [stopCamera, h2, h3]
    | captureBtn env h1 h2 h3 =>
        exact captureAndAnalyze_preserves_inv _ env h2 h3
    | tryAgainBtn h =>
        simp [reset, ih.2]
    | newScanBtn g h =>
        cases g <;> simp [startCamera, reset, ih.2]

/-- C4 witness: the invariant theorem applied to the initial state. -/
theorem reachable_invariant_witness :
    (initialState.capturing = false ∨ initialState.result = none) ∧
    initialState.analyzing = false :=
  reachable_invariant initialState Reachable.init
